import Mathlib

/-!
# Verification of the vocabulary-trainer session core

Shallow embedding of the session/task scheduling and spaced-repetition
state machine of the `gept` vocabulary app.  The embedded functions mirror
the TypeScript source:

* `getWordStats`, `getNextReviewTime`, `handleTaskComplete`,
  `finishSession` (modelled as `finishSessionProgress`) and the queue
  construction of `startSession` from the main app module;
* `checkScramble` and the MATCH-game click handler
  (`handleMatchCardClick`) from the question-card module.

Modelling conventions:

* JS numbers that only ever hold non-negative integers (`box`,
  `consecutiveCorrect`, counters, XP) are `Nat`; millisecond timestamps
  are `Int` (differences of timestamps appear in the streak logic).
* The wall clock (`Date.now()`) is an explicit `now : Int` parameter.
* React `setXxx(prev => ...)` updaters are applied sequentially; plain
  reads of state variables inside a handler read the *pre-update*
  ("stale") values, exactly as the closure semantics of the source —
  in particular the advance/finish check and `finishSession` read the
  queue, error count and XP from *before* the current submission.
* The record maps `wordStats` / `lessonStats` are total functions
  `Nat → Option _`, mirroring the JS objects used as dictionaries.
* `Math.random()`-based shuffles are abstract function parameters; the
  theorems assume only that they permute their input.
-/

namespace Gept

/-! ## Data model (types.ts) -/

inductive TaskType where
  | LEARN
  | CHOICE
  | ASSEMBLE
  | SCRAMBLE
  | MATCH
  | SPELL
deriving DecidableEq, Repr

structure Word where
  id : Nat
  english : String
  pos : String
  chinese : String
deriving DecidableEq, Repr

structure WordStats where
  wordId : Nat
  box : Nat
  nextReviewDate : Int
  consecutiveCorrect : Nat
deriving DecidableEq, Repr

structure LessonStats where
  lessonIndex : Nat
  stars : Nat
  isCompleted : Bool
deriving DecidableEq, Repr

structure UserProgress where
  currentLessonIndex : Nat
  completedWordIds : List Nat
  wordStats : Nat → Option WordStats
  lessonStats : Nat → Option LessonStats
  lastStudyDate : Int
  totalXp : Nat
  dayStreak : Nat
  reminderEnabled : Bool
  reminderTime : String

inductive AppState where
  | DASHBOARD
  | COURSES
  | SETTINGS
  | SESSION
  | SUMMARY
deriving DecidableEq, Repr

structure Task where
  id : String
  word : Word
  type : TaskType
  isRetry : Bool
  groupWords : List Word
deriving DecidableEq, Repr

def WORDS_PER_LESSON : Nat := 6

inductive SessionMode where
  | LESSON
  | REVIEW
deriving DecidableEq, Repr

/-- The live session state owned by the app component. -/
structure SessionState where
  progress : UserProgress
  appState : AppState
  sessionMode : SessionMode
  taskQueue : List Task
  currentTaskIndex : Nat
  combo : Nat
  sessionXpGained : Nat
  isFlipped : Bool
  sessionErrors : Nat

/-! ## Helpers -/

/-- The helper `getWordStats`: look a word up in the stats map, defaulting to a fresh
record with box 0. -/
def getWordStats (p : UserProgress) (id : Nat) : WordStats :=
  (p.wordStats id).getD { wordId := id, box := 0, nextReviewDate := 0, consecutiveCorrect := 0 }

def oneDay : Int := 24 * 60 * 60 * 1000

def reviewIntervals : List Int := [1, 2, 4, 7, 14, 30]

/-- The helper `getNextReviewTime`: now plus the interval (in days) selected by
`min box (intervals.length - 1)`. -/
def getNextReviewTime (now : Int) (box : Nat) : Int :=
  let daysToAdd := reviewIntervals.getD (min box (reviewIntervals.length - 1)) 0
  now + daysToAdd * oneDay

/-! ## Outcome application (handleTaskComplete) -/

/-- The stats update of the success branch: applied only to non-retry,
non-MATCH tasks; the box is incremented (capped at 5) unless the task is
LEARN, `consecutiveCorrect` always increments and the next review date is
recomputed from the new box. -/
def successProgress (now : Int) (p : UserProgress) (t : Task) : UserProgress :=
  if !t.isRetry && !(decide (t.type = TaskType.MATCH)) then
    let oldStat := getWordStats p t.word.id
    let newBox := if t.type = TaskType.LEARN then oldStat.box else min (oldStat.box + 1) 5
    { p with wordStats := fun id =>
        if id = t.word.id then
          some { oldStat with
                 box := newBox
                 consecutiveCorrect := oldStat.consecutiveCorrect + 1
                 nextReviewDate := getNextReviewTime now newBox }
        else p.wordStats id }
  else p

/-- The stats update of the failure branch: applied to every non-MATCH
task (retry copies included), resetting box and streak and making the word
due now. -/
def failureProgress (now : Int) (p : UserProgress) (t : Task) : UserProgress :=
  if !(decide (t.type = TaskType.MATCH)) then
    let oldStat := getWordStats p t.word.id
    { p with wordStats := fun id =>
        if id = t.word.id then
          some { oldStat with box := 0, consecutiveCorrect := 0, nextReviewDate := now }
        else p.wordStats id }
  else p

/-- JS `Array.prototype.splice(i, 0, a)`: insert `a` at position `i`,
clamping `i` to the length (JS splice appends when the index is past the
end). -/
def spliceInsert (i : Nat) (a : α) (l : List α) : List α :=
  l.take i ++ a :: l.drop i

/-- The penalty LEARN re-exposure task created on failure. -/
def penaltyLearn (now : Int) (t : Task) : Task :=
  { id := "retry-learn-" ++ toString now
    word := t.word
    type := TaskType.LEARN
    isRetry := true
    groupWords := [] }

/-- The penalty repeat task created on failure; SCRAMBLE is retried as
ASSEMBLE. -/
def penaltyRetry (now : Int) (t : Task) : Task :=
  { id := "retry-action-" ++ toString now
    word := t.word
    type := if t.type = TaskType.SCRAMBLE then TaskType.ASSEMBLE else t.type
    isRetry := true
    groupWords := [] }

/-- The queue update of the failure branch: for non-MATCH tasks the code
splices `penaltyLearn` at offset 0 and `penaltyRetry` at offset 2 of the
remainder after the current position. -/
def failureQueue (now : Int) (queue : List Task) (i : Nat) (t : Task) : List Task :=
  if !(decide (t.type = TaskType.MATCH)) then
    let remaining := queue.drop (i + 1)
    let newQueue := spliceInsert 2 (penaltyRetry now t) (spliceInsert 0 (penaltyLearn now t) remaining)
    queue.take (i + 1) ++ newQueue
  else queue

/-! ## Session summary (finishSession) -/

/-- Scorable tasks: everything except retries and LEARN tasks. -/
def scorableTaskCount (queue : List Task) : Nat :=
  (queue.filter (fun t => !t.isRetry && !(decide (t.type = TaskType.LEARN)))).length

/-- The star rating: 3 for a flawless session, 2 when the error count is
at most 10% of the scorable-task count, 1 otherwise.  The JS comparison
`sessionErrors <= tasksCount * 0.1` (IEEE doubles) agrees with
`10 * sessionErrors ≤ tasksCount` at every pair of naturals: the rounded
product `fl(n * fl(0.1))` never falls below `n / 10` and its relative
error is far smaller than the gap to the next integer. -/
def sessionStars (sessionErrors tasksCount : Nat) : Nat :=
  if sessionErrors = 0 then 3
  else if 10 * sessionErrors ≤ tasksCount then 2
  else 1

def msPerDay : Int := 86400000

/-- Whole days since the Unix epoch (floor division, matching the UTC
reading of a JS `Date`). -/
def epochDay (ts : Int) : Int := Int.fdiv ts msPerDay

structure CivilDate where
  year : Int
  month : Int
  day : Int
deriving DecidableEq, Repr

/-- Gregorian civil date from a day count since 1970-01-01 (the standard
era-based algorithm); models how a JS `Date` decomposes a timestamp, with
the timezone fixed to UTC. -/
def civilFromDays (z0 : Int) : CivilDate :=
  let z := z0 + 719468
  let era := Int.fdiv z 146097
  let doe := z - era * 146097
  let yoe := Int.fdiv (doe - Int.fdiv doe 1460 + Int.fdiv doe 36524 - Int.fdiv doe 146096) 365
  let y := yoe + era * 400
  let doy := doe - (365 * yoe + Int.fdiv yoe 4 - Int.fdiv yoe 100)
  let mp := Int.fdiv (5 * doy + 2) 153
  let d := doy - Int.fdiv (153 * mp + 2) 5 + 1
  let m := mp + (if mp < 10 then 3 else -9)
  { year := if m ≤ 2 then y + 1 else y, month := m, day := d }

/-- JS `Date.prototype.getDate()` (day of month, 1-based). -/
def jsGetDate (ts : Int) : Int := (civilFromDays (epochDay ts)).day

/-- JS `Date.prototype.getMonth()` (0-based month). -/
def jsGetMonth (ts : Int) : Int := (civilFromDays (epochDay ts)).month - 1

/-- The code's same-day test: day of month and month coincide (the year is
not compared). -/
def isSameDayJS (lastStudy now : Int) : Bool :=
  decide (jsGetDate lastStudy = jsGetDate now) && decide (jsGetMonth lastStudy = jsGetMonth now)

/-- The code's yesterday test: the gap is under 48 hours and the same-day
test fails. -/
def isYesterdayJS (lastStudy now : Int) : Bool :=
  decide (now - lastStudy < 48 * 60 * 60 * 1000) && !(isSameDayJS lastStudy now)

/-- The streak update inside `finishSession`. -/
def updatedStreak (lastStudy now : Int) (streak : Nat) : Nat :=
  if isYesterdayJS lastStudy now then streak + 1
  else if !(isSameDayJS lastStudy now) then 1
  else streak

/-- JS `[...new Set(l)]`: deduplication keeping first occurrences. -/
def jsSetDedup (l : List Nat) : List Nat :=
  l.foldl (fun acc a => if a ∈ acc then acc else acc ++ [a]) []

/-- The `UserProgress` transformation of `finishSession`.  The queue,
error count and XP arguments are the (stale) component-state values read
by the closure. -/
def finishSessionProgress (now : Int) (taskQueue : List Task) (sessionErrors : Nat)
    (sessionXpGained : Nat) (sessionMode : SessionMode) (prev : UserProgress) : UserProgress :=
  let tasksCount := scorableTaskCount taskQueue
  let stars := sessionStars sessionErrors tasksCount
  let newStreak := updatedStreak prev.lastStudyDate now prev.dayStreak
  let newLessonStats :=
    if sessionMode = SessionMode.LESSON then
      let cur := (prev.lessonStats prev.currentLessonIndex).getD
        { lessonIndex := prev.currentLessonIndex, stars := 0, isCompleted := false }
      fun i => if i = prev.currentLessonIndex then
          some { cur with stars := max cur.stars stars, isCompleted := true }
        else prev.lessonStats i
    else prev.lessonStats
  let newCompletedIds :=
    if sessionMode = SessionMode.LESSON then
      let newWordIds := (taskQueue.filter
        (fun t => decide (t.type = TaskType.LEARN) && !t.isRetry)).map (fun t => t.word.id)
      jsSetDedup (prev.completedWordIds ++ newWordIds)
    else prev.completedWordIds
  { prev with
    completedWordIds := newCompletedIds
    lastStudyDate := now
    totalXp := prev.totalXp + sessionXpGained
    dayStreak := newStreak
    lessonStats := newLessonStats }

/-- The handler `handleTaskComplete(success)`.  All reads are from the pre-submission
state `s` (React closure semantics); the queued functional updates are
applied in order.  When the current index is not strictly below
`length - 1` of the *stale* queue, `finishSession` runs (on the stale
queue, error count and XP) and the app moves to the summary screen. -/
def handleTaskComplete (now : Int) (s : SessionState) (success : Bool) : SessionState :=
  match s.taskQueue.get? s.currentTaskIndex with
  | none => s
  | some currentTask =>
    let combo1 := if success then s.combo + 1 else 0
    let xpGain := if success then 10 + s.combo * 2 else 0
    let errors1 := if success then s.sessionErrors else s.sessionErrors + 1
    let progress1 :=
      if success then successProgress now s.progress currentTask
      else failureProgress now s.progress currentTask
    let queue1 :=
      if success then s.taskQueue
      else failureQueue now s.taskQueue s.currentTaskIndex currentTask
    let xp1 := s.sessionXpGained + xpGain
    if s.currentTaskIndex < s.taskQueue.length - 1 then
      { s with
        combo := combo1
        sessionErrors := errors1
        progress := progress1
        taskQueue := queue1
        sessionXpGained := xp1
        currentTaskIndex := s.currentTaskIndex + 1
        isFlipped := false }
    else
      { s with
        combo := combo1
        sessionErrors := errors1
        progress := finishSessionProgress now s.taskQueue s.sessionErrors s.sessionXpGained
          s.sessionMode progress1
        taskQueue := queue1
        sessionXpGained := xp1
        appState := AppState.SUMMARY }

/-! ## Projection lemmas for `handleTaskComplete` -/

theorem finishSessionProgress_wordStats (now : Int) (q : List Task) (e xp : Nat)
    (m : SessionMode) (prev : UserProgress) :
    (finishSessionProgress now q e xp m prev).wordStats = prev.wordStats := rfl

theorem handleTaskComplete_wordStats (now : Int) (s : SessionState) (success : Bool) (t : Task)
    (hi : s.taskQueue.get? s.currentTaskIndex = some t) :
    (handleTaskComplete now s success).progress.wordStats =
      (if success then successProgress now s.progress t
       else failureProgress now s.progress t).wordStats := by
  simp only [handleTaskComplete, hi]
  split <;> rfl

theorem handleTaskComplete_wordStats_true (now : Int) (s : SessionState) (t : Task)
    (hi : s.taskQueue.get? s.currentTaskIndex = some t) :
    (handleTaskComplete now s true).progress.wordStats =
      (successProgress now s.progress t).wordStats := by
  simpa using handleTaskComplete_wordStats now s true t hi

theorem handleTaskComplete_wordStats_false (now : Int) (s : SessionState) (t : Task)
    (hi : s.taskQueue.get? s.currentTaskIndex = some t) :
    (handleTaskComplete now s false).progress.wordStats =
      (failureProgress now s.progress t).wordStats := by
  simpa using handleTaskComplete_wordStats now s false t hi

theorem handleTaskComplete_taskQueue (now : Int) (s : SessionState) (success : Bool) (t : Task)
    (hi : s.taskQueue.get? s.currentTaskIndex = some t) :
    (handleTaskComplete now s success).taskQueue =
      if success then s.taskQueue
      else failureQueue now s.taskQueue s.currentTaskIndex t := by
  simp only [handleTaskComplete, hi]
  split <;> rfl

theorem handleTaskComplete_sessionErrors (now : Int) (s : SessionState) (success : Bool) (t : Task)
    (hi : s.taskQueue.get? s.currentTaskIndex = some t) :
    (handleTaskComplete now s success).sessionErrors =
      if success then s.sessionErrors else s.sessionErrors + 1 := by
  simp only [handleTaskComplete, hi]
  split <;> rfl

theorem handleTaskComplete_appState (now : Int) (s : SessionState) (success : Bool) (t : Task)
    (hi : s.taskQueue.get? s.currentTaskIndex = some t) :
    (handleTaskComplete now s success).appState =
      if s.currentTaskIndex < s.taskQueue.length - 1 then s.appState
      else AppState.SUMMARY := by
  simp only [handleTaskComplete, hi]
  split <;> simp_all

theorem handleTaskComplete_currentTaskIndex (now : Int) (s : SessionState) (success : Bool)
    (t : Task) (hi : s.taskQueue.get? s.currentTaskIndex = some t) :
    (handleTaskComplete now s success).currentTaskIndex =
      if s.currentTaskIndex < s.taskQueue.length - 1 then s.currentTaskIndex + 1
      else s.currentTaskIndex := by
  simp only [handleTaskComplete, hi]
  split <;> simp_all

/-! ## C5: day-streak update at session finish -/

/-- Modelled from the spec: the claimed calendar rule for the streak —
unchanged when the previous study day is today, incremented when it is
exactly the calendar day before today, reset to 1 in every other case
(days counted in UTC). -/
def specStreakUpdate (lastStudy now : Int) (streak : Nat) : Nat :=
  if epochDay lastStudy = epochDay now then streak
  else if epochDay lastStudy = epochDay now - 1 then streak + 1
  else 1

/-- A previous-progress fixture: last studied 2026-01-01 23:00 UTC with a
5-day streak. -/
def prevC5 : UserProgress :=
  { currentLessonIndex := 0
    completedWordIds := []
    wordStats := fun _ => none
    lessonStats := fun _ => none
    lastStudyDate := 1767308400000
    totalXp := 0
    dayStreak := 5
    reminderEnabled := false
    reminderTime := "20:00" }

/-- C5 counterexample: finishing a session at 2026-01-03 22:00 UTC, 47
hours after a 2026-01-01 23:00 UTC study — two calendar days earlier, so
the claimed rule resets the streak to 1 — but the code increments it to 6
(the 48-hour window test does not test "calendar yesterday"). -/
theorem C5_streak_counterexample :
    (finishSessionProgress 1767477600000 [] 0 0 SessionMode.REVIEW prevC5).dayStreak = 6 ∧
    specStreakUpdate prevC5.lastStudyDate 1767477600000 prevC5.dayStreak = 1 ∧
    (finishSessionProgress 1767477600000 [] 0 0 SessionMode.REVIEW prevC5).dayStreak ≠
      specStreakUpdate prevC5.lastStudyDate 1767477600000 prevC5.dayStreak := by
  refine ⟨by decide, by decide, by decide⟩

/-- C5 amended: the streak at session finish is governed by the code's
heuristic — unchanged when `lastStudyDate` shares today's day-of-month and
month (the year is never compared), incremented when it differs and lies
less than 48 hours before now, and reset to 1 otherwise. -/
theorem C5_streak_amended (now : Int) (queue : List Task) (errors xp : Nat)
    (mode : SessionMode) (prev : UserProgress) :
    (finishSessionProgress now queue errors xp mode prev).dayStreak =
      if jsGetDate prev.lastStudyDate = jsGetDate now ∧
          jsGetMonth prev.lastStudyDate = jsGetMonth now then
        prev.dayStreak
      else if now - prev.lastStudyDate < 48 * 60 * 60 * 1000 then
        prev.dayStreak + 1
      else 1 := by
  show updatedStreak prev.lastStudyDate now prev.dayStreak = _
  unfold updatedStreak isYesterdayJS isSameDayJS
  by_cases hd : jsGetDate prev.lastStudyDate = jsGetDate now <;>
    by_cases hm : jsGetMonth prev.lastStudyDate = jsGetMonth now <;>
      by_cases h2 : now - prev.lastStudyDate < 48 * 60 * 60 * 1000 <;>
        simp [hd, hm, h2]

/-! ## C6: star rating -/

/-- C6: the star rating at session finish is 3 when the error count is 0,
2 when it is at most 10% of the scorable-task count (tasks excluding
retries and LEARN; boundary inclusive), and 1 otherwise. -/
theorem C6_star_rating (queue : List Task) (errors : Nat) :
    (errors = 0 → sessionStars errors (scorableTaskCount queue) = 3) ∧
    (0 < errors → 10 * errors ≤ scorableTaskCount queue →
      sessionStars errors (scorableTaskCount queue) = 2) ∧
    (scorableTaskCount queue < 10 * errors →
      sessionStars errors (scorableTaskCount queue) = 1) := by
  unfold sessionStars
  refine ⟨fun h0 => by simp [h0], fun hpos hle => ?_, fun hgt => ?_⟩
  · rw [if_neg (by omega), if_pos hle]
  · rw [if_neg (by omega), if_neg (by omega)]

def wordA : Word := { id := 1, english := "cat", pos := "n.", chinese := "cat-zh" }

/-- A queue of 20 plain SPELL tasks: 20 scorable tasks. -/
def queue20 : List Task :=
  List.replicate 20 { id := "t", word := wordA, type := TaskType.SPELL, isRetry := false, groupWords := [] }

/-- C6 witness: 2 errors over 20 scorable tasks sit exactly on the 10%
boundary and rate 2 stars. -/
theorem C6_star_rating_witness : sessionStars 2 (scorableTaskCount queue20) = 2 :=
  (C6_star_rating queue20 2).2.1 (by decide) (by decide)

/-! ## C8: the box stays in [0, 5] -/

theorem successProgress_box_le (now : Int) (p : UserProgress) (t : Task) (id : Nat)
    (h : (getWordStats p id).box ≤ 5) :
    (getWordStats (successProgress now p t) id).box ≤ 5 := by
  unfold successProgress
  split
  · by_cases hid : id = t.word.id
    · subst hid
      by_cases hL : t.type = TaskType.LEARN
      · simpa [getWordStats, hL] using h
      · simp [getWordStats, hL]
    · simpa [getWordStats, hid] using h
  · exact h

theorem failureProgress_box_le (now : Int) (p : UserProgress) (t : Task) (id : Nat)
    (h : (getWordStats p id).box ≤ 5) :
    (getWordStats (failureProgress now p t) id).box ≤ 5 := by
  unfold failureProgress
  split
  · by_cases hid : id = t.word.id
    · subst hid
      simp [getWordStats]
    · simpa [getWordStats, hid] using h
  · exact h

/-- C8: every outcome application preserves the per-word invariant
`box ≤ 5` (the lower bound `0 ≤ box` holds by the `Nat` representation:
the code only ever stores 0 or `min (box + 1) 5`).  Words without a stats
record read as the default box 0. -/
theorem C8_box_invariant (now : Int) (s : SessionState) (success : Bool) (id : Nat)
    (h : (getWordStats s.progress id).box ≤ 5) :
    (getWordStats (handleTaskComplete now s success).progress id).box ≤ 5 := by
  rcases hget : s.taskQueue.get? s.currentTaskIndex with _ | t
  · simp only [handleTaskComplete, hget]
    exact h
  · rcases success with _ | _
    · have hw := handleTaskComplete_wordStats_false now s t hget
      have hrw : getWordStats (handleTaskComplete now s false).progress id
          = getWordStats (failureProgress now s.progress t) id := by
        unfold getWordStats
        rw [hw]
      rw [hrw]
      exact failureProgress_box_le now s.progress t id h
    · have hw := handleTaskComplete_wordStats_true now s t hget
      have hrw : getWordStats (handleTaskComplete now s true).progress id
          = getWordStats (successProgress now s.progress t) id := by
        unfold getWordStats
        rw [hw]
      rw [hrw]
      exact successProgress_box_le now s.progress t id h

/-- A session state holding a word at the maximum box 5, about to succeed
on a SPELL task for it. -/
def sC8 : SessionState :=
  { progress :=
      { currentLessonIndex := 0
        completedWordIds := []
        wordStats := fun i =>
          if i = 1 then some { wordId := 1, box := 5, nextReviewDate := 0, consecutiveCorrect := 9 }
          else none
        lessonStats := fun _ => none
        lastStudyDate := 0
        totalXp := 0
        dayStreak := 0
        reminderEnabled := false
        reminderTime := "20:00" }
    appState := AppState.SESSION
    sessionMode := SessionMode.LESSON
    taskQueue := [{ id := "t0", word := wordA, type := TaskType.SPELL, isRetry := false, groupWords := [] }]
    currentTaskIndex := 0
    combo := 0
    sessionXpGained := 0
    isFlipped := false
    sessionErrors := 0 }

/-- C8 witness: succeeding at box 5 keeps the box at 5. -/
theorem C8_box_invariant_witness :
    (getWordStats (handleTaskComplete 0 sC8 true).progress 1).box ≤ 5 :=
  C8_box_invariant 0 sC8 true 1 (by decide)

/-! ## C1: correct LEARN outcomes and word stats -/

def learnTaskC1 : Task :=
  { id := "t0", word := wordA, type := TaskType.LEARN, isRetry := false, groupWords := [] }

/-- A fresh session about to succeed on a non-retry LEARN task for word 1,
which has no stats record yet. -/
def sC1 : SessionState :=
  { progress :=
      { currentLessonIndex := 0
        completedWordIds := []
        wordStats := fun _ => none
        lessonStats := fun _ => none
        lastStudyDate := 0
        totalXp := 0
        dayStreak := 0
        reminderEnabled := false
        reminderTime := "20:00" }
    appState := AppState.SESSION
    sessionMode := SessionMode.LESSON
    taskQueue := [learnTaskC1]
    currentTaskIndex := 0
    combo := 0
    sessionXpGained := 0
    isFlipped := false
    sessionErrors := 0 }

/-- C1 counterexample: a correct outcome on a non-retry LEARN task does
NOT leave the word's stats untouched — a stats record is created for a
word that had none, with `consecutiveCorrect` bumped to 1 and
`nextReviewDate` set one day ahead (only the box is left alone). -/
theorem C1_learn_stats_counterexample :
    sC1.progress.wordStats 1 = none ∧
    (handleTaskComplete 0 sC1 true).progress.wordStats 1 =
      some { wordId := 1, box := 0, nextReviewDate := 86400000, consecutiveCorrect := 1 } := by
  exact ⟨rfl, by decide⟩

/-- C1 amended: a correct outcome on a non-retry LEARN task keeps the box
at its prior value but increments `consecutiveCorrect` and recomputes
`nextReviewDate` from the unchanged box (creating a default-based record
for a word that had none); stats of other words are untouched. -/
theorem C1_learn_stats_amended (now : Int) (s : SessionState) (t : Task)
    (hi : s.taskQueue.get? s.currentTaskIndex = some t)
    (hty : t.type = TaskType.LEARN) (hr : t.isRetry = false) :
    (handleTaskComplete now s true).progress.wordStats t.word.id =
      some { wordId := (getWordStats s.progress t.word.id).wordId
             box := (getWordStats s.progress t.word.id).box
             nextReviewDate := getNextReviewTime now (getWordStats s.progress t.word.id).box
             consecutiveCorrect := (getWordStats s.progress t.word.id).consecutiveCorrect + 1 } ∧
    (∀ j, j ≠ t.word.id →
      (handleTaskComplete now s true).progress.wordStats j = s.progress.wordStats j) := by
  have hw := handleTaskComplete_wordStats_true now s t hi
  rw [hw]
  unfold successProgress
  rw [if_pos (by simp [hr, hty])]
  refine ⟨?_, fun j hj => ?_⟩
  · simp [hty]
  · simp [hj]

/-- C1 amended witness: the concrete LEARN success of the counterexample,
through the amended theorem. -/
theorem C1_learn_stats_amended_witness :
    (handleTaskComplete 0 sC1 true).progress.wordStats 1 =
      some { wordId := 1, box := 0, nextReviewDate := 86400000, consecutiveCorrect := 1 } ∧
    (handleTaskComplete 0 sC1 true).progress.wordStats 2 = sC1.progress.wordStats 2 := by
  have h := C1_learn_stats_amended 0 sC1 learnTaskC1 rfl rfl rfl
  exact ⟨h.1, h.2 2 (by decide)⟩

/-! ## C4: retry and MATCH outcomes and word stats -/

def wordB : Word := { id := 2, english := "dog", pos := "n.", chinese := "dog-zh" }

def retryTaskC4 : Task :=
  { id := "r0", word := wordB, type := TaskType.SPELL, isRetry := true, groupWords := [] }

/-- A session about to fail a retry SPELL task for word 2, which sits at
box 3. -/
def sC4 : SessionState :=
  { progress :=
      { currentLessonIndex := 0
        completedWordIds := []
        wordStats := fun i =>
          if i = 2 then some { wordId := 2, box := 3, nextReviewDate := 1000, consecutiveCorrect := 3 }
          else none
        lessonStats := fun _ => none
        lastStudyDate := 0
        totalXp := 0
        dayStreak := 0
        reminderEnabled := false
        reminderTime := "20:00" }
    appState := AppState.SESSION
    sessionMode := SessionMode.LESSON
    taskQueue := [retryTaskC4]
    currentTaskIndex := 0
    combo := 0
    sessionXpGained := 0
    isFlipped := false
    sessionErrors := 0 }

/-- C4 counterexample: the failure branch checks only for MATCH, not for
retries — an incorrect outcome on a retry (non-MATCH) task resets the
word's stats (box 3 → 0) instead of leaving them unchanged. -/
theorem C4_retry_stats_counterexample :
    sC4.progress.wordStats 2 =
      some { wordId := 2, box := 3, nextReviewDate := 1000, consecutiveCorrect := 3 } ∧
    (handleTaskComplete 0 sC4 false).progress.wordStats 2 =
      some { wordId := 2, box := 0, nextReviewDate := 0, consecutiveCorrect := 0 } := by
  exact ⟨rfl, by decide⟩

/-- C4 amended: correct outcomes on retry or MATCH tasks leave every
word's stats unchanged, and incorrect outcomes leave them unchanged for
MATCH tasks; but an incorrect outcome on a retry non-MATCH task resets
the word's record to box 0, streak 0 and `nextReviewDate = now` (other
words stay untouched). -/
theorem C4_retry_match_stats_amended (now : Int) (s : SessionState) (t : Task)
    (hi : s.taskQueue.get? s.currentTaskIndex = some t)
    (h : t.isRetry = true ∨ t.type = TaskType.MATCH) :
    (handleTaskComplete now s true).progress.wordStats = s.progress.wordStats ∧
    (t.type = TaskType.MATCH →
      (handleTaskComplete now s false).progress.wordStats = s.progress.wordStats) ∧
    (t.type ≠ TaskType.MATCH →
      (handleTaskComplete now s false).progress.wordStats t.word.id =
        some { wordId := (getWordStats s.progress t.word.id).wordId
               box := 0
               nextReviewDate := now
               consecutiveCorrect := 0 } ∧
      ∀ j, j ≠ t.word.id →
        (handleTaskComplete now s false).progress.wordStats j = s.progress.wordStats j) := by
  have hwT := handleTaskComplete_wordStats_true now s t hi
  have hwF := handleTaskComplete_wordStats_false now s t hi
  refine ⟨?_, ?_, ?_⟩
  · rw [hwT]
    unfold successProgress
    rcases h with h | h
    · rw [if_neg (by simp [h])]
    · rw [if_neg (by simp [h])]
  · intro hm
    rw [hwF]
    unfold failureProgress
    rw [if_neg (by simp [hm])]
  · intro hm
    rw [hwF]
    unfold failureProgress
    rw [if_pos (by simp [hm])]
    refine ⟨?_, fun j hj => ?_⟩
    · simp
    · simp [hj]

/-- C4 amended witness: the concrete retry-failure of the counterexample,
through the amended theorem. -/
theorem C4_retry_match_stats_amended_witness :
    (handleTaskComplete 0 sC4 true).progress.wordStats = sC4.progress.wordStats ∧
    (handleTaskComplete 0 sC4 false).progress.wordStats 2 =
      some { wordId := 2, box := 0, nextReviewDate := 0, consecutiveCorrect := 0 } ∧
    (handleTaskComplete 0 sC4 false).progress.wordStats 5 = sC4.progress.wordStats 5 := by
  have h := C4_retry_match_stats_amended 0 sC4 retryTaskC4 rfl (Or.inl rfl)
  have h3 := h.2.2 (by decide)
  exact ⟨h.1, h3.1, h3.2 5 (by decide)⟩

/-! ## C3: finishing condition -/

def spellTaskC3 : Task :=
  { id := "t0", word := wordA, type := TaskType.SPELL, isRetry := false, groupWords := [] }

/-- A session whose queue holds a single SPELL task, about to fail it. -/
def sC3 : SessionState :=
  { progress :=
      { currentLessonIndex := 0
        completedWordIds := []
        wordStats := fun _ => none
        lessonStats := fun _ => none
        lastStudyDate := 0
        totalXp := 0
        dayStreak := 0
        reminderEnabled := false
        reminderTime := "20:00" }
    appState := AppState.SESSION
    sessionMode := SessionMode.LESSON
    taskQueue := [spellTaskC3]
    currentTaskIndex := 0
    combo := 0
    sessionXpGained := 0
    isFlipped := false
    sessionErrors := 0 }

/-- C3 counterexample: failing the last queued task DOES finish the
session (the advance check reads the stale, pre-splice queue length), even
though the two freshly spliced retry tasks leave positions beyond the
current index unplayed: the queue grew to 3 while the index stayed 0. -/
theorem C3_finish_counterexample :
    (handleTaskComplete 0 sC3 false).appState = AppState.SUMMARY ∧
    (handleTaskComplete 0 sC3 false).taskQueue.length = 3 ∧
    (handleTaskComplete 0 sC3 false).currentTaskIndex + 1 <
      (handleTaskComplete 0 sC3 false).taskQueue.length := by
  refine ⟨by decide, by decide, by decide⟩

/-- C3 amended: the session transitions to Finished exactly when the
current index is not strictly below `length - 1` of the queue *as it was
before the submission* (the stale closure value) — so a failed outcome on
the last queued task finishes the session even though two retry tasks were
just appended; otherwise the index advances and the app state is kept. -/
theorem C3_finish_amended (now : Int) (s : SessionState) (t : Task) (b : Bool)
    (hi : s.taskQueue.get? s.currentTaskIndex = some t) :
    (s.currentTaskIndex + 1 < s.taskQueue.length →
      (handleTaskComplete now s b).appState = s.appState ∧
      (handleTaskComplete now s b).currentTaskIndex = s.currentTaskIndex + 1) ∧
    (s.taskQueue.length ≤ s.currentTaskIndex + 1 →
      (handleTaskComplete now s b).appState = AppState.SUMMARY ∧
      (handleTaskComplete now s b).currentTaskIndex = s.currentTaskIndex) := by
  have hlen : s.currentTaskIndex < s.taskQueue.length := (List.get?_eq_some.mp hi).1
  have hA := handleTaskComplete_appState now s b t hi
  have hC := handleTaskComplete_currentTaskIndex now s b t hi
  constructor
  · intro hlt
    have hcond : s.currentTaskIndex < s.taskQueue.length - 1 := by omega
    rw [hA, hC, if_pos hcond, if_pos hcond]
    exact ⟨rfl, rfl⟩
  · intro hge
    have hcond : ¬ s.currentTaskIndex < s.taskQueue.length - 1 := by omega
    rw [hA, hC, if_neg hcond, if_neg hcond]
    exact ⟨rfl, rfl⟩

/-- C3 amended witness: the single-task failure of the counterexample,
through the amended theorem. -/
theorem C3_finish_amended_witness :
    (handleTaskComplete 0 sC3 false).appState = AppState.SUMMARY ∧
    (handleTaskComplete 0 sC3 false).currentTaskIndex = 0 :=
  (C3_finish_amended 0 sC3 spellTaskC3 false rfl).2 (by decide)

/-! ## C2: retry insertion on failure -/

/-- C2: a failed outcome (failures are only ever submitted for non-MATCH
tasks, see `handleWrong`) splices exactly two `isRetry` tasks after the
failure point: the penalty LEARN task right after the current position,
then — skipping one slot when a task remains between them — the penalty
repeat task (SCRAMBLE retried as ASSEMBLE); the queue grows by exactly 2
on failure and is untouched on success. -/
theorem C2_retry_insertion (now : Int) (s : SessionState) (t : Task)
    (hi : s.taskQueue.get? s.currentTaskIndex = some t)
    (hm : t.type ≠ TaskType.MATCH) :
    (handleTaskComplete now s true).taskQueue = s.taskQueue ∧
    (handleTaskComplete now s false).taskQueue.length = s.taskQueue.length + 2 ∧
    (handleTaskComplete now s false).taskQueue.take (s.currentTaskIndex + 1) =
      s.taskQueue.take (s.currentTaskIndex + 1) ∧
    (handleTaskComplete now s false).taskQueue.get? (s.currentTaskIndex + 1) =
      some (penaltyLearn now t) ∧
    (penaltyLearn now t).type = TaskType.LEARN ∧
    (penaltyLearn now t).isRetry = true ∧
    (penaltyRetry now t).isRetry = true ∧
    (penaltyRetry now t).type =
      (if t.type = TaskType.SCRAMBLE then TaskType.ASSEMBLE else t.type) ∧
    (s.taskQueue.drop (s.currentTaskIndex + 1) = [] →
      (handleTaskComplete now s false).taskQueue.get? (s.currentTaskIndex + 2) =
        some (penaltyRetry now t)) ∧
    (s.taskQueue.drop (s.currentTaskIndex + 1) ≠ [] →
      (handleTaskComplete now s false).taskQueue.get? (s.currentTaskIndex + 2) =
        s.taskQueue.get? (s.currentTaskIndex + 1) ∧
      (handleTaskComplete now s false).taskQueue.get? (s.currentTaskIndex + 3) =
        some (penaltyRetry now t) ∧
      (handleTaskComplete now s false).taskQueue.drop (s.currentTaskIndex + 4) =
        s.taskQueue.drop (s.currentTaskIndex + 2)) := by
  have hlen : s.currentTaskIndex < s.taskQueue.length := (List.get?_eq_some.mp hi).1
  have hqT := handleTaskComplete_taskQueue now s true t hi
  have hqF := handleTaskComplete_taskQueue now s false t hi
  rw [if_pos rfl] at hqT
  rw [if_neg (by simp)] at hqF
  have hfq : (handleTaskComplete now s false).taskQueue =
      s.taskQueue.take (s.currentTaskIndex + 1) ++
        spliceInsert 2 (penaltyRetry now t)
          (penaltyLearn now t :: s.taskQueue.drop (s.currentTaskIndex + 1)) := by
    rw [hqF]
    unfold failureQueue
    rw [if_pos (by simp [hm])]
    rfl
  have hT : (s.taskQueue.take (s.currentTaskIndex + 1)).length = s.currentTaskIndex + 1 := by
    rw [List.length_take]
    exact Nat.min_eq_left (by omega)
  refine ⟨hqT, ?_, ?_, ?_, rfl, rfl, rfl, rfl, ?_, ?_⟩
  · -- length
    have hdl := congrArg List.length
      (List.take_append_drop (s.currentTaskIndex + 1) s.taskQueue)
    rw [List.length_append, hT] at hdl
    have hs : ∀ (l : List Task) (a b : Task),
        (spliceInsert 2 b (a :: l)).length = l.length + 2 := by
      intro l a b
      rcases l with _ | ⟨x, xs⟩ <;> rfl
    rw [hfq, List.length_append, hT, hs]
    omega
  · rw [hfq]
    exact List.take_left' hT
  · rw [hfq, List.get?_append_right (by omega), hT]
    simp [spliceInsert]
  · intro hR
    rw [hfq, hR, List.get?_append_right (by omega), hT]
    have h2 : s.currentTaskIndex + 2 - (s.currentTaskIndex + 1) = 1 := by omega
    rw [h2]
    rfl
  · intro hRne
    rcases hR : s.taskQueue.drop (s.currentTaskIndex + 1) with _ | ⟨r0, rest⟩
    · exact absurd hR hRne
    have hsp : spliceInsert 2 (penaltyRetry now t) (penaltyLearn now t :: r0 :: rest) =
        penaltyLearn now t :: r0 :: penaltyRetry now t :: rest := rfl
    rw [hfq, hR, hsp]
    have hq0 : s.taskQueue.get? (s.currentTaskIndex + 1) = some r0 := by
      conv_lhs => rw [← List.take_append_drop (s.currentTaskIndex + 1) s.taskQueue]
      rw [List.get?_append_right (by omega), hT, hR]
      simp
    refine ⟨?_, ?_, ?_⟩
    · rw [List.get?_append_right (by omega), hT, hq0]
      have h2 : s.currentTaskIndex + 2 - (s.currentTaskIndex + 1) = 1 := by omega
      rw [h2]
      rfl
    · rw [List.get?_append_right (by omega), hT]
      have h3 : s.currentTaskIndex + 3 - (s.currentTaskIndex + 1) = 2 := by omega
      rw [h3]
      rfl
    · have h4 : s.currentTaskIndex + 4 = (s.currentTaskIndex + 1) + 3 := by omega
      have h2 : s.currentTaskIndex + 2 = (s.currentTaskIndex + 1) + 1 := by omega
      rw [h4, ← List.drop_drop, List.drop_left' hT, h2, ← List.drop_drop, hR]
      rfl

def scrambleTaskC2 : Task :=
  { id := "t0", word := wordA, type := TaskType.SCRAMBLE, isRetry := false, groupWords := [] }

def spellTaskC2 : Task :=
  { id := "t1", word := wordB, type := TaskType.SPELL, isRetry := false, groupWords := [] }

/-- A two-task session (SCRAMBLE then SPELL) about to fail the first
task. -/
def sC2 : SessionState :=
  { progress :=
      { currentLessonIndex := 0
        completedWordIds := []
        wordStats := fun _ => none
        lessonStats := fun _ => none
        lastStudyDate := 0
        totalXp := 0
        dayStreak := 0
        reminderEnabled := false
        reminderTime := "20:00" }
    appState := AppState.SESSION
    sessionMode := SessionMode.LESSON
    taskQueue := [scrambleTaskC2, spellTaskC2]
    currentTaskIndex := 0
    combo := 0
    sessionXpGained := 0
    isFlipped := false
    sessionErrors := 0 }

/-- C2 witness: failing the first of two tasks (a SCRAMBLE) splices the
penalty LEARN right after it and the ASSEMBLE-substituted retry one slot
later. -/
theorem C2_retry_insertion_witness :
    (handleTaskComplete 0 sC2 true).taskQueue = sC2.taskQueue ∧
    (handleTaskComplete 0 sC2 false).taskQueue.length = sC2.taskQueue.length + 2 ∧
    (handleTaskComplete 0 sC2 false).taskQueue.take 1 = sC2.taskQueue.take 1 ∧
    (handleTaskComplete 0 sC2 false).taskQueue.get? 1 = some (penaltyLearn 0 scrambleTaskC2) ∧
    (penaltyLearn 0 scrambleTaskC2).type = TaskType.LEARN ∧
    (penaltyLearn 0 scrambleTaskC2).isRetry = true ∧
    (penaltyRetry 0 scrambleTaskC2).isRetry = true ∧
    (penaltyRetry 0 scrambleTaskC2).type =
      (if scrambleTaskC2.type = TaskType.SCRAMBLE then TaskType.ASSEMBLE
       else scrambleTaskC2.type) ∧
    (sC2.taskQueue.drop 1 = [] →
      (handleTaskComplete 0 sC2 false).taskQueue.get? 2 =
        some (penaltyRetry 0 scrambleTaskC2)) ∧
    (sC2.taskQueue.drop 1 ≠ [] →
      (handleTaskComplete 0 sC2 false).taskQueue.get? 2 = sC2.taskQueue.get? 1 ∧
      (handleTaskComplete 0 sC2 false).taskQueue.get? 3 =
        some (penaltyRetry 0 scrambleTaskC2) ∧
      (handleTaskComplete 0 sC2 false).taskQueue.drop 4 = sC2.taskQueue.drop 2) :=
  C2_retry_insertion 0 sC2 scrambleTaskC2 rfl (by decide)

/-! ## C7: the initial lesson queue (startSession) -/

/-- A task created by the `generateId` counter of `startSession`. -/
def mkTask (now : Int) (k : Nat) (w : Word) (ty : TaskType) : Task :=
  { id := "task-" ++ toString now ++ "-" ++ toString k
    word := w
    type := ty
    isRetry := false
    groupWords := [] }

/-- One generation phase of `startSession`: one task per word, threading
the shared id counter. -/
def phaseTasks (now : Int) (off : Nat) (ty : TaskType) : List Word → List Task
  | [] => []
  | w :: ws => mkTask now off w ty :: phaseTasks now (off + 1) ty ws

/-- Stand-in for the `undefined` that `newWords[0]` would give on an
empty slice (unreachable for the full lessons the claims range over). -/
def placeholderWord : Word := { id := 0, english := "", pos := "", chinese := "" }

/-- The trailing MATCH task (`k` is the id-counter value it receives). -/
def matchTask (now : Int) (nw : List Word) (k : Nat) : Task :=
  { id := "task-" ++ toString now ++ "-" ++ toString (4 * nw.length + k)
    word := nw.headD placeholderWord
    type := TaskType.MATCH
    isRetry := false
    groupWords := nw }

/-- The queue building of `startSession` for a word slice `nw`: per-phase
task generation, re-derivation of phases 2–5 by filtering with an
independent shuffle each, LEARN kept first, MATCH appended last. -/
def lessonQueueCore (now : Int) (nw : List Word)
    (shuffleW : List Word → List Word) (shuffleT : List Task → List Task) : List Task :=
  let n := nw.length
  let tasks :=
    phaseTasks now 0 TaskType.LEARN nw ++
    phaseTasks now n TaskType.CHOICE nw ++
    phaseTasks now (2 * n) TaskType.ASSEMBLE nw ++
    phaseTasks now (3 * n) TaskType.SPELL nw ++
    phaseTasks now (4 * n) TaskType.SCRAMBLE ((shuffleW nw).take 3)
  tasks.filter (fun t => decide (t.type = TaskType.LEARN)) ++
  shuffleT (tasks.filter (fun t => decide (t.type = TaskType.CHOICE))) ++
  shuffleT (tasks.filter (fun t => decide (t.type = TaskType.ASSEMBLE))) ++
  shuffleT (tasks.filter (fun t => decide (t.type = TaskType.SPELL))) ++
  shuffleT (tasks.filter (fun t => decide (t.type = TaskType.SCRAMBLE))) ++
  [matchTask now nw ((shuffleW nw).take 3).length]

/-- The queue `startSession` builds for a lesson index: the catalog slice of
`WORDS_PER_LESSON` words starting at `lessonIdx * WORDS_PER_LESSON`. -/
def startSessionQueue (now : Int) (wordList : List Word) (lessonIdx : Nat)
    (shuffleW : List Word → List Word) (shuffleT : List Task → List Task) : List Task :=
  lessonQueueCore now
    ((wordList.drop (lessonIdx * WORDS_PER_LESSON)).take WORDS_PER_LESSON)
    shuffleW shuffleT

theorem phaseTasks_type (now : Int) (off : Nat) (ty : TaskType) (ws : List Word) :
    ∀ t ∈ phaseTasks now off ty ws, t.type = ty := by
  induction ws generalizing off with
  | nil => intro t ht; cases ht
  | cons w ws ih =>
    intro t ht
    rcases List.mem_cons.mp ht with rfl | ht
    · rfl
    · exact ih (off + 1) t ht

theorem phaseTasks_length (now : Int) (off : Nat) (ty : TaskType) (ws : List Word) :
    (phaseTasks now off ty ws).length = ws.length := by
  induction ws generalizing off with
  | nil => rfl
  | cons w ws ih => simp [phaseTasks, ih]

theorem filter_eq_of_all_type (l : List Task) (ty ty' : TaskType)
    (h : ∀ t ∈ l, t.type = ty) :
    l.filter (fun t => decide (t.type = ty')) = if ty = ty' then l else [] := by
  induction l with
  | nil => simp
  | cons a l ih =>
    have ha := h a (by simp)
    have hl := ih fun t ht => h t (List.mem_cons_of_mem _ ht)
    by_cases hty : ty = ty'
    · subst hty
      simp [List.filter_cons, ha, hl]
    · simp [List.filter_cons, ha, hty, hl]

/-- The five phase filters of `lessonQueueCore` recover the phase lists. -/
theorem lessonQueueCore_eq (now : Int) (nw : List Word)
    (shuffleW : List Word → List Word) (shuffleT : List Task → List Task) :
    lessonQueueCore now nw shuffleW shuffleT =
      phaseTasks now 0 TaskType.LEARN nw ++
      (shuffleT (phaseTasks now nw.length TaskType.CHOICE nw) ++
      (shuffleT (phaseTasks now (2 * nw.length) TaskType.ASSEMBLE nw) ++
      (shuffleT (phaseTasks now (3 * nw.length) TaskType.SPELL nw) ++
      (shuffleT (phaseTasks now (4 * nw.length) TaskType.SCRAMBLE ((shuffleW nw).take 3)) ++
      [matchTask now nw ((shuffleW nw).take 3).length])))) := by
  simp only [lessonQueueCore]
  have key : ∀ ty : TaskType,
      (phaseTasks now 0 TaskType.LEARN nw ++
        phaseTasks now nw.length TaskType.CHOICE nw ++
        phaseTasks now (2 * nw.length) TaskType.ASSEMBLE nw ++
        phaseTasks now (3 * nw.length) TaskType.SPELL nw ++
        phaseTasks now (4 * nw.length) TaskType.SCRAMBLE
          ((shuffleW nw).take 3)).filter (fun t => decide (t.type = ty)) =
      (if TaskType.LEARN = ty then phaseTasks now 0 TaskType.LEARN nw else []) ++
      (if TaskType.CHOICE = ty then phaseTasks now nw.length TaskType.CHOICE nw else []) ++
      (if TaskType.ASSEMBLE = ty then phaseTasks now (2 * nw.length) TaskType.ASSEMBLE nw
        else []) ++
      (if TaskType.SPELL = ty then phaseTasks now (3 * nw.length) TaskType.SPELL nw else []) ++
      (if TaskType.SCRAMBLE = ty then
        phaseTasks now (4 * nw.length) TaskType.SCRAMBLE ((shuffleW nw).take 3) else []) := by
    intro ty
    rw [List.filter_append, List.filter_append, List.filter_append, List.filter_append,
      filter_eq_of_all_type _ _ _ (phaseTasks_type now 0 TaskType.LEARN nw),
      filter_eq_of_all_type _ _ _ (phaseTasks_type now nw.length TaskType.CHOICE nw),
      filter_eq_of_all_type _ _ _ (phaseTasks_type now (2 * nw.length) TaskType.ASSEMBLE nw),
      filter_eq_of_all_type _ _ _ (phaseTasks_type now (3 * nw.length) TaskType.SPELL nw),
      filter_eq_of_all_type _ _ _
        (phaseTasks_type now (4 * nw.length) TaskType.SCRAMBLE ((shuffleW nw).take 3))]
  rw [key TaskType.LEARN, key TaskType.CHOICE, key TaskType.ASSEMBLE, key TaskType.SPELL,
    key TaskType.SCRAMBLE]
  simp

def countType (q : List Task) (ty : TaskType) : Nat :=
  (q.filter (fun t => decide (t.type = ty))).length

theorem countType_append (q1 q2 : List Task) (ty : TaskType) :
    countType (q1 ++ q2) ty = countType q1 ty + countType q2 ty := by
  simp [countType, List.filter_append]

theorem countType_all (l : List Task) (ty ty' : TaskType) (h : ∀ t ∈ l, t.type = ty) :
    countType l ty' = if ty = ty' then l.length else 0 := by
  rw [countType, filter_eq_of_all_type l ty ty' h]
  split <;> simp

/-- C7: for a full 6-word catalog slice, and any shuffles that permute
their input, the initial lesson queue has exactly 28 tasks — 6 LEARN,
6 CHOICE, 6 ASSEMBLE, 6 SPELL, 3 SCRAMBLE, 1 MATCH — with the LEARN
tasks strictly first, the MATCH task strictly last, and the phases in the
fixed order LEARN, CHOICE, ASSEMBLE, SPELL, SCRAMBLE. -/
theorem C7_lesson_queue (now : Int) (wordList : List Word) (lessonIdx : Nat)
    (shuffleW : List Word → List Word) (shuffleT : List Task → List Task)
    (hW : ∀ l : List Word, (shuffleW l).Perm l)
    (hT : ∀ l : List Task, (shuffleT l).Perm l)
    (hn : ((wordList.drop (lessonIdx * WORDS_PER_LESSON)).take WORDS_PER_LESSON).length =
      WORDS_PER_LESSON) :
    (startSessionQueue now wordList lessonIdx shuffleW shuffleT).length = 28 ∧
    countType (startSessionQueue now wordList lessonIdx shuffleW shuffleT) TaskType.LEARN = 6 ∧
    countType (startSessionQueue now wordList lessonIdx shuffleW shuffleT) TaskType.CHOICE = 6 ∧
    countType (startSessionQueue now wordList lessonIdx shuffleW shuffleT) TaskType.ASSEMBLE = 6 ∧
    countType (startSessionQueue now wordList lessonIdx shuffleW shuffleT) TaskType.SPELL = 6 ∧
    countType (startSessionQueue now wordList lessonIdx shuffleW shuffleT) TaskType.SCRAMBLE = 3 ∧
    countType (startSessionQueue now wordList lessonIdx shuffleW shuffleT) TaskType.MATCH = 1 ∧
    (∀ t ∈ (startSessionQueue now wordList lessonIdx shuffleW shuffleT).take 6,
      t.type = TaskType.LEARN) ∧
    (∀ t ∈ ((startSessionQueue now wordList lessonIdx shuffleW shuffleT).drop 6).take 6,
      t.type = TaskType.CHOICE) ∧
    (∀ t ∈ ((startSessionQueue now wordList lessonIdx shuffleW shuffleT).drop 12).take 6,
      t.type = TaskType.ASSEMBLE) ∧
    (∀ t ∈ ((startSessionQueue now wordList lessonIdx shuffleW shuffleT).drop 18).take 6,
      t.type = TaskType.SPELL) ∧
    (∀ t ∈ ((startSessionQueue now wordList lessonIdx shuffleW shuffleT).drop 24).take 3,
      t.type = TaskType.SCRAMBLE) ∧
    (∀ t ∈ (startSessionQueue now wordList lessonIdx shuffleW shuffleT).drop 27,
      t.type = TaskType.MATCH) := by
  have hq := lessonQueueCore_eq now
    ((wordList.drop (lessonIdx * WORDS_PER_LESSON)).take WORDS_PER_LESSON) shuffleW shuffleT
  set nw := (wordList.drop (lessonIdx * WORDS_PER_LESSON)).take WORDS_PER_LESSON with hnw
  have h6 : nw.length = 6 := hn
  have hswl : (shuffleW nw).length = 6 := by rw [(hW nw).length_eq, h6]
  have hscr : ((shuffleW nw).take 3).length = 3 := by
    rw [List.length_take, hswl]
    omega
  -- segment abbreviations
  set S1 := phaseTasks now 0 TaskType.LEARN nw with hS1
  set S2 := shuffleT (phaseTasks now nw.length TaskType.CHOICE nw) with hS2
  set S3 := shuffleT (phaseTasks now (2 * nw.length) TaskType.ASSEMBLE nw) with hS3
  set S4 := shuffleT (phaseTasks now (3 * nw.length) TaskType.SPELL nw) with hS4
  set S5 := shuffleT (phaseTasks now (4 * nw.length) TaskType.SCRAMBLE
    ((shuffleW nw).take 3)) with hS5
  set M := matchTask now nw ((shuffleW nw).take 3).length with hM
  have hL1 : S1.length = 6 := by rw [hS1, phaseTasks_length, h6]
  have hL2 : S2.length = 6 := by rw [hS2, (hT _).length_eq, phaseTasks_length, h6]
  have hL3 : S3.length = 6 := by rw [hS3, (hT _).length_eq, phaseTasks_length, h6]
  have hL4 : S4.length = 6 := by rw [hS4, (hT _).length_eq, phaseTasks_length, h6]
  have hL5 : S5.length = 3 := by rw [hS5, (hT _).length_eq, phaseTasks_length, hscr]
  have hT1 : ∀ t ∈ S1, t.type = TaskType.LEARN := phaseTasks_type now 0 TaskType.LEARN nw
  have hT2 : ∀ t ∈ S2, t.type = TaskType.CHOICE := fun t ht =>
    phaseTasks_type now nw.length TaskType.CHOICE nw t ((hT _).mem_iff.mp ht)
  have hT3 : ∀ t ∈ S3, t.type = TaskType.ASSEMBLE := fun t ht =>
    phaseTasks_type now (2 * nw.length) TaskType.ASSEMBLE nw t ((hT _).mem_iff.mp ht)
  have hT4 : ∀ t ∈ S4, t.type = TaskType.SPELL := fun t ht =>
    phaseTasks_type now (3 * nw.length) TaskType.SPELL nw t ((hT _).mem_iff.mp ht)
  have hT5 : ∀ t ∈ S5, t.type = TaskType.SCRAMBLE := fun t ht =>
    phaseTasks_type now (4 * nw.length) TaskType.SCRAMBLE _ t ((hT _).mem_iff.mp ht)
  have hT6 : ∀ t ∈ [M], t.type = TaskType.MATCH := by
    intro t ht
    rcases List.mem_singleton.mp ht with rfl
    rfl
  have hqq : startSessionQueue now wordList lessonIdx shuffleW shuffleT =
      S1 ++ (S2 ++ (S3 ++ (S4 ++ (S5 ++ [M])))) := hq
  -- drops at the segment boundaries
  have hd6 : (startSessionQueue now wordList lessonIdx shuffleW shuffleT).drop 6 =
      S2 ++ (S3 ++ (S4 ++ (S5 ++ [M]))) := by
    rw [hqq, List.drop_left' hL1]
  have hd12 : (startSessionQueue now wordList lessonIdx shuffleW shuffleT).drop 12 =
      S3 ++ (S4 ++ (S5 ++ [M])) := by
    rw [show (12 : Nat) = 6 + 6 from rfl, ← List.drop_drop, hd6, List.drop_left' hL2]
  have hd18 : (startSessionQueue now wordList lessonIdx shuffleW shuffleT).drop 18 =
      S4 ++ (S5 ++ [M]) := by
    rw [show (18 : Nat) = 12 + 6 from rfl, ← List.drop_drop, hd12, List.drop_left' hL3]
  have hd24 : (startSessionQueue now wordList lessonIdx shuffleW shuffleT).drop 24 =
      S5 ++ [M] := by
    rw [show (24 : Nat) = 18 + 6 from rfl, ← List.drop_drop, hd18, List.drop_left' hL4]
  have hd27 : (startSessionQueue now wordList lessonIdx shuffleW shuffleT).drop 27 = [M] := by
    rw [show (27 : Nat) = 24 + 3 from rfl, ← List.drop_drop, hd24, List.drop_left' hL5]
  refine ⟨?_, ?_, ?_, ?_, ?_, ?_, ?_, ?_, ?_, ?_, ?_, ?_, ?_⟩
  · rw [hqq]
    simp [hL1, hL2, hL3, hL4, hL5]
  · rw [hqq]
    simp only [countType_append, countType_all S1 _ _ hT1, countType_all S2 _ _ hT2,
      countType_all S3 _ _ hT3, countType_all S4 _ _ hT4, countType_all S5 _ _ hT5,
      countType_all [M] _ _ hT6]
    simp [hL1]
  · rw [hqq]
    simp only [countType_append, countType_all S1 _ _ hT1, countType_all S2 _ _ hT2,
      countType_all S3 _ _ hT3, countType_all S4 _ _ hT4, countType_all S5 _ _ hT5,
      countType_all [M] _ _ hT6]
    simp [hL2]
  · rw [hqq]
    simp only [countType_append, countType_all S1 _ _ hT1, countType_all S2 _ _ hT2,
      countType_all S3 _ _ hT3, countType_all S4 _ _ hT4, countType_all S5 _ _ hT5,
      countType_all [M] _ _ hT6]
    simp [hL3]
  · rw [hqq]
    simp only [countType_append, countType_all S1 _ _ hT1, countType_all S2 _ _ hT2,
      countType_all S3 _ _ hT3, countType_all S4 _ _ hT4, countType_all S5 _ _ hT5,
      countType_all [M] _ _ hT6]
    simp [hL4]
  · rw [hqq]
    simp only [countType_append, countType_all S1 _ _ hT1, countType_all S2 _ _ hT2,
      countType_all S3 _ _ hT3, countType_all S4 _ _ hT4, countType_all S5 _ _ hT5,
      countType_all [M] _ _ hT6]
    simp [hL5]
  · rw [hqq]
    simp only [countType_append, countType_all S1 _ _ hT1, countType_all S2 _ _ hT2,
      countType_all S3 _ _ hT3, countType_all S4 _ _ hT4, countType_all S5 _ _ hT5,
      countType_all [M] _ _ hT6]
    simp
  · intro t ht
    rw [hqq, List.take_left' hL1] at ht
    exact hT1 t ht
  · intro t ht
    rw [hd6, List.take_left' hL2] at ht
    exact hT2 t ht
  · intro t ht
    rw [hd12, List.take_left' hL3] at ht
    exact hT3 t ht
  · intro t ht
    rw [hd18, List.take_left' hL4] at ht
    exact hT4 t ht
  · intro t ht
    rw [hd24, List.take_left' hL5] at ht
    exact hT5 t ht
  · intro t ht
    rw [hd27] at ht
    exact hT6 t ht

/-- A concrete 6-word catalog. -/
def cat6 : List Word :=
  [ { id := 1, english := "a1", pos := "n.", chinese := "c1" },
    { id := 2, english := "a2", pos := "n.", chinese := "c2" },
    { id := 3, english := "a3", pos := "n.", chinese := "c3" },
    { id := 4, english := "a4", pos := "n.", chinese := "c4" },
    { id := 5, english := "a5", pos := "n.", chinese := "c5" },
    { id := 6, english := "a6", pos := "n.", chinese := "c6" } ]

/-- C7 witness: lesson 0 of a 6-word catalog with identity shuffles. -/
theorem C7_lesson_queue_witness :
    (startSessionQueue 0 cat6 0 (fun l => l) (fun l => l)).length = 28 ∧
    countType (startSessionQueue 0 cat6 0 (fun l => l) (fun l => l)) TaskType.LEARN = 6 ∧
    countType (startSessionQueue 0 cat6 0 (fun l => l) (fun l => l)) TaskType.CHOICE = 6 ∧
    countType (startSessionQueue 0 cat6 0 (fun l => l) (fun l => l)) TaskType.ASSEMBLE = 6 ∧
    countType (startSessionQueue 0 cat6 0 (fun l => l) (fun l => l)) TaskType.SPELL = 6 ∧
    countType (startSessionQueue 0 cat6 0 (fun l => l) (fun l => l)) TaskType.SCRAMBLE = 3 ∧
    countType (startSessionQueue 0 cat6 0 (fun l => l) (fun l => l)) TaskType.MATCH = 1 ∧
    (∀ t ∈ (startSessionQueue 0 cat6 0 (fun l => l) (fun l => l)).take 6,
      t.type = TaskType.LEARN) ∧
    (∀ t ∈ ((startSessionQueue 0 cat6 0 (fun l => l) (fun l => l)).drop 6).take 6,
      t.type = TaskType.CHOICE) ∧
    (∀ t ∈ ((startSessionQueue 0 cat6 0 (fun l => l) (fun l => l)).drop 12).take 6,
      t.type = TaskType.ASSEMBLE) ∧
    (∀ t ∈ ((startSessionQueue 0 cat6 0 (fun l => l) (fun l => l)).drop 18).take 6,
      t.type = TaskType.SPELL) ∧
    (∀ t ∈ ((startSessionQueue 0 cat6 0 (fun l => l) (fun l => l)).drop 24).take 3,
      t.type = TaskType.SCRAMBLE) ∧
    (∀ t ∈ (startSessionQueue 0 cat6 0 (fun l => l) (fun l => l)).drop 27,
      t.type = TaskType.MATCH) :=
  C7_lesson_queue 0 cat6 0 (fun l => l) (fun l => l)
    (fun l => List.Perm.refl l) (fun l => List.Perm.refl l) (by decide)

/-! ## C9: SCRAMBLE grading (checkScramble) -/

/-- The character class of the regex `[.,?!]` used by `checkScramble`. -/
def scramblePunct (c : Char) : Bool := c == '.' || c == ',' || c == '?' || c == '!'

/-- The normalizer used by `checkScramble`:
`s.replace(/[.,?!]/g, '').toLowerCase().split(' ').join('')` — every
occurrence of the four punctuation characters is removed (not only
terminal ones), then the string is lowercased and every space removed.
JS `toLowerCase` agrees with `Char.toLower` on the ASCII range. -/
def normalize (s : String) : String :=
  String.mk (((s.data.filter (fun c => !scramblePunct c)).map Char.toLower).filter
    (fun c => !(c == ' ')))

/-- The grader `checkScramble`: the selected tiles joined by single spaces, compared
to the target sentence under `normalize`. -/
def checkScramble (scrambleSelected : List String) (targetSentence : String) : Bool :=
  normalize (String.intercalate " " scrambleSelected) == normalize targetSentence

/-- Modelled from the spec: the claimed normalization — "normalize case
… strip terminal punctuation and all interior spaces": lowercase, remove
punctuation only at the end of the sentence, and remove the spaces. -/
def specNormalize (s : String) : String :=
  String.mk ((((s.data.reverse.dropWhile scramblePunct).reverse).map Char.toLower).filter
    (fun c => !(c == ' ')))

/-- C9 counterexample: with target `"Yes, I can."` and assembled tiles
`Yes I can`, the code grades correct, yet the two sides differ under the
claimed terminal-punctuation-only normalization (the interior comma
survives it): the grading is not the claimed equivalence. -/
theorem C9_scramble_counterexample :
    checkScramble ["Yes", "I", "can"] "Yes, I can." = true ∧
    specNormalize (String.intercalate " " ["Yes", "I", "can"]) ≠ specNormalize "Yes, I can." := by
  refine ⟨by decide, by decide⟩

theorem char_eq_of_toNat_eq (c d : Char) (h : c.toNat = d.toNat) : c = d :=
  Char.eq_of_val_eq (UInt32.ext h)

theorem char_beq_eq (c d : Char) : (c == d) = decide (c.toNat = d.toNat) := by
  by_cases h : c = d
  · subst h
    simp
  · have hn : c.toNat ≠ d.toNat := fun hn => h (char_eq_of_toNat_eq c d hn)
    simp [h, hn]

theorem toNat_ofNat_valid (n : Nat) (h : n.isValidChar) : (Char.ofNat n).toNat = n := by
  rw [Char.ofNat, dif_pos h]
  rfl

/-- Lowercasing never creates or destroys one of the four stripped
punctuation characters. -/
theorem scramblePunct_toLower (c : Char) : scramblePunct c.toLower = scramblePunct c := by
  unfold scramblePunct Char.toLower
  by_cases h : c.toNat ≥ 65 ∧ c.toNat ≤ 90
  · rw [if_pos h]
    have hv : (c.toNat + 32).isValidChar := Or.inl (by omega)
    have ht := toNat_ofNat_valid (c.toNat + 32) hv
    simp only [char_beq_eq, ht]
    have h46 : ('.' : Char).toNat = 46 := rfl
    have h44 : (',' : Char).toNat = 44 := rfl
    have h63 : ('?' : Char).toNat = 63 := rfl
    have h33 : ('!' : Char).toNat = 33 := rfl
    rw [h46, h44, h63, h33]
    have h14 : (c.toNat = 14) = False := by simp only [eq_iff_iff, iff_false]; omega
    have h12 : (c.toNat = 12) = False := by simp only [eq_iff_iff, iff_false]; omega
    have h31 : (c.toNat = 31) = False := by simp only [eq_iff_iff, iff_false]; omega
    have h1 : (c.toNat = 1) = False := by simp only [eq_iff_iff, iff_false]; omega
    have g46 : (c.toNat = 46) = False := by simp only [eq_iff_iff, iff_false]; omega
    have g44 : (c.toNat = 44) = False := by simp only [eq_iff_iff, iff_false]; omega
    have g63 : (c.toNat = 63) = False := by simp only [eq_iff_iff, iff_false]; omega
    have g33 : (c.toNat = 33) = False := by simp only [eq_iff_iff, iff_false]; omega
    simp [h14, h12, h31, h1, g46, g44, g63, g33]
  · rw [if_neg h]

/-- The characters removed by the amended description: every space and
every occurrence of `.`, `,`, `?`, `!`. -/
def removedChar (c : Char) : Bool := c == ' ' || scramblePunct c

/-- The amended normalization: lowercase everything, then drop every
removed character wherever it occurs. -/
def amendedNormalize (s : String) : String :=
  String.mk ((s.data.map Char.toLower).filter (fun c => !removedChar c))

theorem normalize_eq_amended (s : String) : normalize s = amendedNormalize s := by
  unfold normalize amendedNormalize
  apply congrArg String.mk
  have h1 : (s.data.map Char.toLower).filter (fun c => !removedChar c) =
      ((s.data.map Char.toLower).filter (fun c => !scramblePunct c)).filter
        (fun c => !(c == ' ')) := by
    rw [List.filter_filter]
    apply List.filter_congr
    intro c _
    simp [removedChar, Bool.not_or, Bool.and_comm]
  rw [h1]
  have h2 : (s.data.map Char.toLower).filter (fun c => !scramblePunct c) =
      (s.data.filter (fun c => !scramblePunct c)).map Char.toLower := by
    rw [List.filter_map]
    apply congrArg
    apply List.filter_congr
    intro c _
    simp [Function.comp, scramblePunct_toLower]
  rw [h2]

/-- C9 amended: a SCRAMBLE answer is graded correct iff the assembled and
target sentences are equal after lowercasing and removing every
occurrence of `.`, `,`, `?`, `!` (wherever it appears, not only terminal)
together with every space — word order matters, spacing and those
punctuation characters do not. -/
theorem C9_scramble_amended (sel : List String) (target : String) :
    checkScramble sel target = true ↔
      amendedNormalize (String.intercalate " " sel) = amendedNormalize target := by
  unfold checkScramble
  rw [normalize_eq_amended, normalize_eq_amended]
  exact beq_iff_eq

/-! ## C10: the MATCH game never reports failure -/

inductive CardStatus where
  | idle
  | correct
  | wrong
deriving DecidableEq, Repr

structure MatchCard where
  id : String
  content : String
  isEn : Bool
  wordId : Nat
  isMatched : Bool
deriving DecidableEq, Repr

/-- The question-card state used by the MATCH game. -/
structure MatchState where
  matchCards : List MatchCard
  matchSelection : List String
  matchesFound : Nat
  status : CardStatus
deriving DecidableEq, Repr

/-- The setup `setupMatch`: an `en` and a `ch` card per group word, shuffled. -/
def setupMatch (gw : List Word) (shuffleC : List MatchCard → List MatchCard) : MatchState :=
  { matchCards := shuffleC ((gw.map fun w =>
      [{ id := "en-" ++ toString w.id, content := w.english, isEn := true,
         wordId := w.id, isMatched := false },
       { id := "ch-" ++ toString w.id, content := w.chinese, isEn := false,
         wordId := w.id, isMatched := false }]).join)
    matchSelection := []
    matchesFound := 0
    status := CardStatus.idle }

/-- The handler `handleMatchCardClick`, with each `setTimeout` completion flattened
into the same step (the component ignores clicks while `status` is not
idle, so the flattening does not change which outcomes are emitted).  The
second component is the `onAnswer` call the step performs, if any: a
mismatched pair only resets the selection and emits nothing; only the
final pair emits — and it emits `true`. -/
def handleMatchCardClick (groupWords : List Word) (st : MatchState) (cardId : String) :
    MatchState × Option Bool :=
  if st.status ≠ CardStatus.idle then (st, none)
  else
    match st.matchCards.find? (fun c => c.id == cardId) with
    | none => (st, none)
    | some clickedCard =>
      if clickedCard.isMatched then (st, none)
      else if cardId ∈ st.matchSelection then (st, none)
      else
        if (st.matchSelection ++ [cardId]).length = 2 then
          match st.matchCards.find? (fun c => c.id == (st.matchSelection ++ [cardId]).getD 0 ""),
              st.matchCards.find? (fun c => c.id == (st.matchSelection ++ [cardId]).getD 1 "") with
          | some c1, some c2 =>
            if c1.wordId = c2.wordId then
              if st.matchesFound + 1 ≥ groupWords.length then
                ({ st with
                   matchCards := st.matchCards.map (fun c =>
                     if c.id = c1.id ∨ c.id = c2.id then { c with isMatched := true } else c)
                   matchSelection := []
                   matchesFound := st.matchesFound + 1
                   status := CardStatus.correct }, some true)
              else
                ({ st with
                   matchCards := st.matchCards.map (fun c =>
                     if c.id = c1.id ∨ c.id = c2.id then { c with isMatched := true } else c)
                   matchSelection := []
                   matchesFound := st.matchesFound + 1 }, none)
            else
              ({ st with matchSelection := [], status := CardStatus.idle }, none)
          | _, _ => ({ st with matchSelection := [], status := CardStatus.idle }, none)
        else
          ({ st with matchSelection := st.matchSelection ++ [cardId] }, none)

/-- The `onAnswer` call performed by `handleWrong`: `onAnswer(false)` for
every task type except MATCH, for which only the in-card selection is
reset and nothing is emitted. -/
def handleWrong (ty : TaskType) : Option Bool :=
  if ty ≠ TaskType.MATCH then some false else none

/-- Run a sequence of card clicks, collecting every emitted outcome. -/
def runMatchClicks (groupWords : List Word) (st : MatchState) :
    List String → MatchState × List Bool
  | [] => (st, [])
  | c :: cs =>
    ((runMatchClicks groupWords (handleMatchCardClick groupWords st c).1 cs).1,
     (handleMatchCardClick groupWords st c).2.toList ++
       (runMatchClicks groupWords (handleMatchCardClick groupWords st c).1 cs).2)

theorem handleMatchCardClick_emits_true (groupWords : List Word) (st : MatchState)
    (cardId : String) (b : Bool)
    (h : (handleMatchCardClick groupWords st cardId).2 = some b) : b = true := by
  unfold handleMatchCardClick at h
  repeat' split at h
  all_goals simp_all

theorem runMatchClicks_all_true (groupWords : List Word) (st : MatchState)
    (clicks : List String) :
    ∀ b ∈ (runMatchClicks groupWords st clicks).2, b = true := by
  induction clicks generalizing st with
  | nil =>
    intro b hb
    cases hb
  | cons c cs ih =>
    intro b hb
    unfold runMatchClicks at hb
    rcases List.mem_append.mp hb with hb | hb
    · rcases hstep : (handleMatchCardClick groupWords st c).2 with _ | b'
      · rw [hstep] at hb
        cases hb
      · rw [hstep] at hb
        rcases List.mem_singleton.mp hb with rfl
        exact handleMatchCardClick_emits_true groupWords st c b hstep
    · exact ih _ b hb

/-- C10: every outcome a MATCH game ever delivers through `onAnswer` is a
success — a mismatched pair only resets the selection — so `handleWrong`
emits nothing for MATCH, and a successful outcome neither increments
`sessionErrors` nor splices retry tasks. -/
theorem C10_match_no_failure (groupWords : List Word) (st : MatchState)
    (clicks : List String) (b : Bool) (now : Int) (s : SessionState)
    (hb : b ∈ (runMatchClicks groupWords st clicks).2) :
    b = true ∧
    handleWrong TaskType.MATCH = none ∧
    (handleTaskComplete now s true).sessionErrors = s.sessionErrors ∧
    (handleTaskComplete now s true).taskQueue = s.taskQueue := by
  refine ⟨runMatchClicks_all_true groupWords st clicks b hb, rfl, ?_, ?_⟩
  · rcases hget : s.taskQueue.get? s.currentTaskIndex with _ | t
    · simp only [handleTaskComplete, hget]
    · rw [handleTaskComplete_sessionErrors now s true t hget, if_pos rfl]
  · rcases hget : s.taskQueue.get? s.currentTaskIndex with _ | t
    · simp only [handleTaskComplete, hget]
    · rw [handleTaskComplete_taskQueue now s true t hget, if_pos rfl]

def gwC10 : List Word := [wordA, wordB]

/-- The MATCH state for `gwC10` with an identity shuffle. -/
def mC10 : MatchState := setupMatch gwC10 (fun l => l)

/-- C10 witness: a full two-word game (both pairs matched in order)
emits exactly one outcome, `true`. -/
theorem C10_match_no_failure_witness :
    true = true ∧
    handleWrong TaskType.MATCH = none ∧
    (handleTaskComplete 0 sC8 true).sessionErrors = sC8.sessionErrors ∧
    (handleTaskComplete 0 sC8 true).taskQueue = sC8.taskQueue :=
  C10_match_no_failure gwC10 mC10 ["en-1", "ch-1", "en-2", "ch-2"] true 0 sC8 (by decide)

end Gept
